import Mathlib

/-!
Shallow embedding of `io_scene_godot/converters/physics.py` from the
godot-blender-exporter repository, together with the collaborator
interfaces it relies on (resource table, node templates, mesh converter),
modelled from the specification where their code is not part of the
physics module.

Machine conventions of the embedding:
* Blender / Godot objects become inductive trees: an object either has no
  parent (`root`) or a parent object (`child`), which mirrors Python's
  `node.parent is None` test and makes the upward hierarchy walks
  structurally recursive.
* Python floats are modelled as rationals (`ℚ`); 4×4 `mathutils` matrices
  as `Matrix (Fin 4) (Fin 4) ℚ`.
* Functions that mutate the escn file in place instead thread it through
  and return it; calls to `logging.warning` are collected in a returned
  list of warning strings.
-/

abbrev Mat4 := Matrix (Fin 4) (Fin 4) ℚ

/-- A 3-d vector with rational coordinates (stand-in for `mathutils.Vector`). -/
structure Vec3 where
  x : ℚ
  y : ℚ
  z : ℚ
deriving DecidableEq, Repr

/-- Triangulated mesh data as handed back by the external mesh collaborator
(`MeshConverter.to_mesh`): vertex positions, the polygon list (only its
emptiness is inspected by the physics module) and the loop triangles (each a
triple of indices into `vertices`). -/
structure MeshData where
  name : String
  vertices : List Vec3
  polygons : List Nat
  loop_triangles : List (Nat × Nat × Nat)
deriving DecidableEq, Repr

/-- The rigid-body (physics) descriptor a Blender object may carry.
`descId` models Python object identity of the descriptor: two descriptors
belonging to distinct Blender objects are distinct Python objects and thus
have distinct `descId`s. -/
structure RigidBody where
  descId : Nat
  type : String
  kinematic : Bool
  collision_shape : String
  use_margin : Bool
  collision_margin : ℚ
  friction : ℚ
  restitution : ℚ
  linear_damping : ℚ
  angular_damping : ℚ
  use_deactivation : Bool
  use_start_deactivated : Bool
  collision_collections : List Bool
deriving DecidableEq, Repr

/-- The per-object data the physics converter reads from a Blender object.
`mesh_data_id` is the geometry identity of the object's mesh data (used by
the mesh resource key); `mesh` is the triangulated geometry the external
mesh collaborator would produce for this object (`none` when conversion
yields no mesh). -/
structure BlObjectData where
  name : String
  rigid_body : Option RigidBody
  bound_box : List Vec3
  matrix_world : Mat4
  matrix_local : Mat4
  mesh_data_id : Nat
  mesh : Option MeshData

/-- A Blender object in the scene hierarchy: either without a parent or
with one (mirrors `node.parent is None` / `node.parent`). -/
inductive BlObject where
  | root (data : BlObjectData)
  | child (data : BlObjectData) (parent : BlObject)

def BlObject.data : BlObject → BlObjectData
  | .root d => d
  | .child d _ => d

def BlObject.parent : BlObject → Option BlObject
  | .root _ => none
  | .child _ p => some p

def BlObject.name (o : BlObject) : String := o.data.name

def BlObject.rigid_body (o : BlObject) : Option RigidBody := o.data.rigid_body

def BlObject.bound_box (o : BlObject) : List Vec3 := o.data.bound_box

def BlObject.matrix_world (o : BlObject) : Mat4 := o.data.matrix_world

def BlObject.matrix_local (o : BlObject) : Mat4 := o.data.matrix_local

def BlObject.mesh_data_id (o : BlObject) : Nat := o.data.mesh_data_id

/-- Placeholder value for dereferencing `node.rigid_body` when it is `None`:
Python would raise `AttributeError` there. The physics functions are only
invoked on physics-enabled objects, and every theorem below hypothesises
`rigid_body = some rbd`, so this value is never exercised. -/
def undefinedRigidBody : RigidBody :=
  { descId := 0, type := "", kinematic := false, collision_shape := "",
    use_margin := false, collision_margin := 0, friction := 0,
    restitution := 0, linear_damping := 0, angular_damping := 0,
    use_deactivation := false, use_start_deactivated := false,
    collision_collections := [] }

/-- `node.rigid_body` dereferenced as Python does (attribute access on the
descriptor). -/
def BlObject.rbd (o : BlObject) : RigidBody :=
  o.rigid_body.getD undefinedRigidBody

/-- Modelled from the spec: the external mesh collaborator
`MeshConverter(bl_object, export_settings).to_mesh(...)` producing
triangulated geometry on demand (`Option MeshData`); the transient handle
released by `to_mesh_clear` has no observable state in this model. -/
def to_mesh (o : BlObject) : Option MeshData := o.data.mesh

/-- Export options; `key_opts` stands for the export options that
participate in the mesh resource key. -/
structure ExportSettings where
  key_opts : Nat
deriving DecidableEq, Repr

/-! ### Hierarchy resolution (`has_physics`, `get_physics_root`) -/

def PHYSICS_TYPES : List String := ["KinematicBody", "RigidBody", "StaticBody"]

/-- `has_physics`: True iff the object has physics enabled. -/
def has_physics (node : BlObject) : Bool := node.rigid_body.isSome

/-- The loop body of `get_physics_root`: walk `current_node` upwards,
overwriting `parent_rbd` whenever `current_node.parent.rigid_body` is set. -/
def get_physics_root_loop (parent_rbd : Option BlObject) : BlObject → Option BlObject
  | .root _ => parent_rbd
  | .child _ p =>
      get_physics_root_loop (if p.rigid_body.isSome then some p else parent_rbd) p

/-- `get_physics_root`: check upstream for other rigid bodies (to allow
compound shapes); returns the upstream-most rigid body. -/
def get_physics_root (node : BlObject) : Option BlObject :=
  get_physics_root_loop none node

/-- `is_physics_root`: True if none of the parents of the object have
physics. -/
def is_physics_root (node : BlObject) : Bool :=
  (get_physics_root node).isNone

/-- The list of strict ancestors of an object, from the immediate parent up
to the top of the hierarchy. -/
def ancestors : BlObject → List BlObject
  | .root _ => []
  | .child _ p => p :: ancestors p

/-! ### Bounding-box extents (`get_extents`) -/

def vecMin (a b : Vec3) : Vec3 := ⟨min a.x b.x, min a.y b.y, min a.z b.z⟩

def vecMax (a b : Vec3) : Vec3 := ⟨max a.x b.x, max a.y b.y, max a.z b.z⟩

def vecSub (a b : Vec3) : Vec3 := ⟨a.x - b.x, a.y - b.y, a.z - b.z⟩

/-- `get_extents`: total X, Y and Z size of the object's local bounding box
(`maxs - mins` over `node.bound_box`). Python reads `vecs[0]` first and
would raise `IndexError` on an empty bounding box; the empty case is mapped
to the zero vector and never relied upon by any theorem. -/
def get_extents (node : BlObject) : Vec3 :=
  match node.bound_box with
  | [] => ⟨0, 0, 0⟩
  | v :: rest =>
      vecSub (rest.foldl vecMax v) (rest.foldl vecMin v)

/-! ### Output document: internal resources and nodes -/

/-- A generated internal resource (`InternalResource(type, name)` plus the
optional properties the physics module assigns). -/
structure InternalResource where
  type : String
  name : String
  extents : Option Vec3 := none
  radius : Option ℚ := none
  height : Option ℚ := none
  margin : Option ℚ := none
  friction : Option ℚ := none
  bounce : Option ℚ := none
  points : Option (List Vec3) := none
  data : Option (List Vec3) := none
deriving DecidableEq, Repr

/-- Cache keys under which internal resources are registered.
`mesh` is the `MeshCollisionShapeKey` pair `(margin, MeshResourceKey)`, with
the external `MeshResourceKey` modelled from the spec as the triple
(shape type, geometry identity, relevant export options); `rbdKey` is the
Python object identity of a rigid-body descriptor (primitive shapes are
registered with the descriptor itself as key). -/
inductive ResourceKey where
  | mesh (margin : ℚ) (shape_type : String) (geomId : Nat) (optsId : Nat)
  | rbdKey (descId : Nat)
deriving DecidableEq, Repr

/-- Properties the physics module assigns on output nodes. -/
structure GdNodeProps where
  transform : Option Mat4 := none
  shape : Option String := none
  collision_layer : Option Nat := none
  collision_mask : Option Nat := none
  physics_material_override : Option String := none
  can_sleep : Option Bool := none
  linear_damp : Option ℚ := none
  angular_damp : Option ℚ := none
  sleeping : Option Bool := none

/-- Modelled from the spec: the external output node representation
(`NodeTemplate(name, type, parent)`) — constructible with name, type-tag
and parent, with settable named properties and a queryable type-tag and
parent reference. A node either has no parent or a parent node. -/
inductive GdNode where
  | root (name : String) (type : String) (props : GdNodeProps)
  | child (name : String) (type : String) (props : GdNodeProps) (parent : GdNode)

/-- `get_type()` on a node template. -/
def GdNode.get_type : GdNode → String
  | .root _ t _ => t
  | .child _ t _ _ => t

def GdNode.nodeName : GdNode → String
  | .root n _ _ => n
  | .child n _ _ _ => n

def GdNode.props : GdNode → GdNodeProps
  | .root _ _ pr => pr
  | .child _ _ pr _ => pr

def GdNode.parent : GdNode → Option GdNode
  | .root _ _ _ => none
  | .child _ _ _ p => some p

/-- The chain of output nodes from a node up through its parents (the node
itself first). -/
def gdChain : GdNode → List GdNode
  | .root n t pr => [.root n t pr]
  | .child n t pr p => .child n t pr p :: gdChain p

/-- Modelled from the spec: the destination document's resource table and
node storage (`escn_file`). Resources are kept in registration order, each
with the cache key it was registered under (`none` for entries added by
`force_add_internal_resource`); resource ids are 1-based positions. -/
structure EscnFile where
  resources : List (Option ResourceKey × InternalResource)
  nodes : List GdNode

/-- Position (1-based id) of the first resource registered under `key`. -/
def lookupKey : List (Option ResourceKey × InternalResource) → ResourceKey → Option Nat
  | [], _ => none
  | e :: rest, key =>
      if e.1 = some key then some 1
      else (lookupKey rest key).map (· + 1)

/-- Modelled from the spec: `get_internal_resource(key)` — lookup without
creating. -/
def EscnFile.get_internal_resource (escn : EscnFile) (key : ResourceKey) : Option Nat :=
  lookupKey escn.resources key

/-- Modelled from the spec: `add_internal_resource(resource, key)` —
return the existing id when `key` is already registered, otherwise append
the resource under `key` and return its fresh id. -/
def EscnFile.add_internal_resource (escn : EscnFile) (rsc : InternalResource)
    (key : ResourceKey) : Nat × EscnFile :=
  match lookupKey escn.resources key with
  | some id => (id, escn)
  | none =>
      (escn.resources.length + 1,
       { escn with resources := escn.resources ++ [(some key, rsc)] })

/-- Modelled from the spec: `force_add_internal_resource(resource)` —
always creates a new entry, no dedup. -/
def EscnFile.force_add_internal_resource (escn : EscnFile)
    (rsc : InternalResource) : Nat × EscnFile :=
  (escn.resources.length + 1, { escn with resources := escn.resources ++ [(none, rsc)] })

/-- Modelled from the spec: `add_node(node)` — register a node into the
output graph. -/
def EscnFile.add_node (escn : EscnFile) (n : GdNode) : EscnFile :=
  { escn with nodes := escn.nodes ++ [n] }

/-- `'SubResource({})'.format(shape_id)`: Python renders `None` as the
string `"None"`. -/
def subResource (id : Option Nat) : String :=
  "SubResource(" ++ (match id with | some n => toString n | none => "None") ++ ")"

/-! ### The fixed axis-correction matrix and safe inversion -/

/-- Modelled from the spec: the process-wide axis-correction constant
`_AXIS_CORRECT` from the external structures module (a rotation of −90°
about X reconciling Blender's and Godot's up-axis conventions). The
theorems below depend only on it being a fixed matrix. -/
def AXIS_CORRECT : Mat4 :=
  Matrix.of ![![1, 0, 0, 0], ![0, 0, 1, 0], ![0, -1, 0, 0], ![0, 0, 0, 1]]

/-- `mathutils.Matrix.inverted_safe()`: the inverse of the matrix when it is
invertible (computed here through the adjugate so the definition stays
executable). On a degenerate matrix mathutils falls back to inverting an
epsilon-perturbed copy; that branch is modelled as the identity and no
theorem relies on it. -/
def inverted_safe (m : Mat4) : Mat4 :=
  if m.det = 0 then 1 else m.det⁻¹ • m.adjugate

/-! ### Mesh-derived collision shapes and their cache keys -/

/-- Modelled from the spec: `MeshResourceKey(shape_type, bl_object,
export_settings)` from the external utils module — the geometry identity of
the object's mesh data plus the relevant export options, tagged with the
shape type. -/
def mesh_resource_key (shape_type : String) (bl_object : BlObject)
    (export_settings : ExportSettings) : String × Nat × Nat :=
  (shape_type, bl_object.mesh_data_id, export_settings.key_opts)

/-- The margin a rigid-body descriptor contributes to a request: the
collision margin when `use_margin` is set and `0` otherwise (the property
that stores in CollisionShape in Godot). -/
def shape_request_margin (rbd : RigidBody) : ℚ :=
  if rbd.use_margin then rbd.collision_margin else 0

/-- `MeshCollisionShapeKey(shape_type, bl_object, export_settings)`: the
pair `(margin, MeshResourceKey)`, where margin is the object's collision
margin when `use_margin` is set and `0` otherwise. -/
def mesh_collision_shape_key (shape_type : String) (bl_object : BlObject)
    (export_settings : ExportSettings) : ResourceKey :=
  let margin : ℚ := shape_request_margin bl_object.rbd
  let mk := mesh_resource_key shape_type bl_object export_settings
  ResourceKey.mesh margin mk.1 mk.2.1 mk.2.2

/-- `generate_convex_shape`: get-or-create of a `ConvexPolygonShape` from a
mesh object. On a cache miss with available mesh geometry, the point list is
every vertex position; the margin is attached when `use_margin` is set.
`to_mesh_clear` (transient-state release) has no observable effect here. -/
def generate_convex_shape (escn_file : EscnFile) (export_settings : ExportSettings)
    (bl_object : BlObject) : Option Nat × EscnFile :=
  let shape_rsc_key := mesh_collision_shape_key "ConvexPolygonShape" bl_object export_settings
  match escn_file.get_internal_resource shape_rsc_key with
  | some shape_id => (some shape_id, escn_file)
  | none =>
      match to_mesh bl_object with
      | none => (none, escn_file)
      | some mesh =>
          let base : InternalResource :=
            { type := "ConvexPolygonShape", name := mesh.name,
              points := some mesh.vertices }
          let col_shape :=
            if bl_object.rbd.use_margin then
              { base with margin := some bl_object.rbd.collision_margin }
            else base
          let r := escn_file.add_internal_resource col_shape shape_rsc_key
          (some r.1, r.2)

/-- The triangle data of `generate_concave_shape`: for every loop triangle,
its three vertex positions in reversed order (winding-order correction).
Python indexes `mesh.vertices[vert_id]`; an out-of-range index would raise
`IndexError` and is mapped to the zero vector here (never exercised by a
theorem). -/
def concave_vert_array (mesh : MeshData) : List Vec3 :=
  mesh.loop_triangles.foldr
    (fun tri acc =>
      mesh.vertices.getD tri.2.2 ⟨0, 0, 0⟩ ::
      mesh.vertices.getD tri.2.1 ⟨0, 0, 0⟩ ::
      mesh.vertices.getD tri.1 ⟨0, 0, 0⟩ :: acc)
    []

/-- `generate_concave_shape`: get-or-create of a `ConcavePolygonShape`. On a
cache miss it yields a resource only when the mesh exists and has polygons;
the flat triangle-vertex list is built in reversed per-triangle order. -/
def generate_concave_shape (escn_file : EscnFile) (export_settings : ExportSettings)
    (bl_object : BlObject) : Option Nat × EscnFile :=
  let shape_rsc_key := mesh_collision_shape_key "ConcavePolygonShape" bl_object export_settings
  match escn_file.get_internal_resource shape_rsc_key with
  | some shape_id => (some shape_id, escn_file)
  | none =>
      match to_mesh bl_object with
      | none => (none, escn_file)
      | some mesh =>
          if mesh.polygons.isEmpty then (none, escn_file)
          else
            let base : InternalResource :=
              { type := "ConcavePolygonShape", name := mesh.name,
                data := some (concave_vert_array mesh) }
            let col_shape :=
              if bl_object.rbd.use_margin then
                { base with margin := some bl_object.rbd.collision_margin }
              else base
            let r := escn_file.add_internal_resource col_shape shape_rsc_key
            (some r.1, r.2)

/-! ### Collision-shape node export -/

/-- Registration of a primitive shape resource under the identity of the
originating rigid-body descriptor, followed by the Python margin
assignment `col_shape['margin'] = rbd.collision_margin`. In Python the
registered entry aliases `col_shape`, so a freshly registered resource ends
up carrying the margin, while on a cache hit the freshly built object (and
the margin assigned to it) is discarded and the stored entry is unchanged —
which is exactly what registering the margin-adjusted resource achieves,
since `add_internal_resource` ignores its resource argument on a hit. -/
def primitive_margined (rbd : RigidBody) (rsc : InternalResource) : InternalResource :=
  if rbd.use_margin then { rsc with margin := some rbd.collision_margin } else rsc

def add_primitive_resource (escn : EscnFile) (rbd : RigidBody)
    (rsc : InternalResource) : Nat × EscnFile :=
  escn.add_internal_resource (primitive_margined rbd rsc) (ResourceKey.rbdKey rbd.descId)

/-- `export_collision_shape`: exports the collision primitives/geometry for
one object. Returns the new `CollisionShape` node, the updated escn file and
the warnings logged. -/
def export_collision_shape (escn_file : EscnFile) (export_settings : ExportSettings)
    (node : BlObject) (parent_gd_node : GdNode) (parent_override : Option BlObject) :
    GdNode × EscnFile × List String :=
  let col_name := node.name ++ "Collision"
  let base_transform : Mat4 :=
    match parent_override with
    | none => 1
    | some po => inverted_safe po.matrix_world * node.matrix_world
  let transform := base_transform * AXIS_CORRECT
  let rbd := node.rbd
  if rbd.collision_shape = "CONVEX_HULL" ∨ rbd.collision_shape = "MESH" then
    let gen :=
      if rbd.collision_shape = "CONVEX_HULL" then
        generate_convex_shape escn_file export_settings node
      else
        generate_concave_shape escn_file export_settings node
    let shape_ref : Option String :=
      match gen.1 with
      | some sid => some (subResource (some sid))
      | none => none
    let col_node := GdNode.child col_name "CollisionShape"
      { transform := some transform, shape := shape_ref } parent_gd_node
    (col_node, gen.2.add_node col_node, [])
  else
    let bounds := get_extents node
    let result : Option Nat × EscnFile × List String :=
      if rbd.collision_shape = "BOX" then
        let col_shape : InternalResource :=
          { type := "BoxShape", name := col_name,
            extents := some ⟨bounds.x / 2, bounds.y / 2, bounds.z / 2⟩ }
        let r := add_primitive_resource escn_file rbd col_shape
        (some r.1, r.2, [])
      else if rbd.collision_shape = "SPHERE" then
        let col_shape : InternalResource :=
          { type := "SphereShape", name := col_name,
            radius := some (max bounds.x (max bounds.y bounds.z) / 2) }
        let r := add_primitive_resource escn_file rbd col_shape
        (some r.1, r.2, [])
      else if rbd.collision_shape = "CAPSULE" then
        let rad := max bounds.x bounds.y / 2
        let col_shape : InternalResource :=
          { type := "CapsuleShape", name := col_name,
            radius := some rad, height := some (bounds.z - rad * 2) }
        let r := add_primitive_resource escn_file rbd col_shape
        (some r.1, r.2, [])
      else
        (none, escn_file, ["Unable to export physics shape for " ++ node.name])
    let col_node := GdNode.child col_name "CollisionShape"
      { transform := some transform, shape := some (subResource result.1) } parent_gd_node
    (col_node, result.2.1.add_node col_node, result.2.2)

/-! ### Body-controller export -/

/-- The `col_groups` accumulation loop of `export_physics_controller`:
`col_groups += (1 if flag else 0) << offset` over the enumerated
collision-collection booleans, starting at `offset`. -/
def collision_groups_from (offset : Nat) : List Bool → Nat
  | [] => 0
  | flag :: rest =>
      (if flag then 1 else 0) <<< offset + collision_groups_from (offset + 1) rest

def collision_groups (flags : List Bool) : Nat := collision_groups_from 0 flags

/-- `export_physics_controller`: exports the physics body type as a separate
node (KinematicBody / RigidBody / StaticBody), with material, transform,
collision layer/mask and — for RigidBody — sleep/damping attributes. -/
def export_physics_controller (escn_file : EscnFile) (export_settings : ExportSettings)
    (node : BlObject) (parent_gd_node : GdNode) : GdNode × EscnFile :=
  let phys_name := node.name ++ "Physics"
  let rbd := node.rbd
  let phys_controller :=
    if rbd.type = "ACTIVE" then
      if rbd.kinematic then "KinematicBody" else "RigidBody"
    else "StaticBody"
  let with_mat : Option String × EscnFile :=
    if phys_controller ≠ "KinematicBody" then
      let physics_mat : InternalResource :=
        { type := "PhysicsMaterial", name := node.name ++ "PhysicsMaterial",
          friction := some rbd.friction, bounce := some rbd.restitution }
      let r := escn_file.force_add_internal_resource physics_mat
      (some (subResource (some r.1)), r.2)
    else (none, escn_file)
  let mat_ref := with_mat.1
  let escn1 := with_mat.2
  let col_groups := collision_groups rbd.collision_collections
  let props : GdNodeProps :=
    { transform := some node.matrix_local,
      collision_layer := some col_groups,
      collision_mask := some col_groups,
      physics_material_override := mat_ref,
      can_sleep := if phys_controller = "RigidBody" then some rbd.use_deactivation else none,
      linear_damp := if phys_controller = "RigidBody" then some rbd.linear_damping else none,
      angular_damp := if phys_controller = "RigidBody" then some rbd.angular_damping else none,
      sleeping := if phys_controller = "RigidBody" then some rbd.use_start_deactivated else none }
  let phys_obj := GdNode.child phys_name phys_controller props parent_gd_node
  (phys_obj, escn1.add_node phys_obj)

/-! ### Orchestration (`export_physics_properties`) -/

/-- The upward walk of `export_physics_properties` over output-node parents:
`while gd_node_ptr.get_type() not in PHYSICS_TYPES: gd_node_ptr =
gd_node_ptr.parent`. The loop performs no missing-parent check: stepping
past a parentless node makes `gd_node_ptr` `None` and the next
`get_type()` call raises `AttributeError`; that crash is modelled as
`none`. -/
def findPhysicsNode : GdNode → Option GdNode
  | .root n t pr =>
      if t ∈ PHYSICS_TYPES then some (.root n t pr) else none
  | .child n t pr p =>
      if t ∈ PHYSICS_TYPES then some (.child n t pr p) else findPhysicsNode p

/-- `export_physics_properties`: creates the necessary nodes for the
physics — the body controller when the object is a physics root, then the
collision shape attached to the nearest physics-typed output node. `none`
models the `AttributeError` crash of the unchecked upward walk. -/
def export_physics_properties (escn_file : EscnFile) (export_settings : ExportSettings)
    (node : BlObject) (parent_gd_node : GdNode) :
    Option (GdNode × EscnFile × List String) :=
  let parent_rbd := get_physics_root node
  let attach : GdNode × EscnFile :=
    match parent_rbd with
    | none => export_physics_controller escn_file export_settings node parent_gd_node
    | some _ => (parent_gd_node, escn_file)
  match findPhysicsNode attach.1 with
  | none => none
  | some physics_gd_node =>
      some (export_collision_shape attach.2 export_settings node physics_gd_node parent_rbd)

/-! ### Counting registrations under a key -/

/-- Number of resources registered under a given cache key. -/
def countKey (l : List (Option ResourceKey × InternalResource)) (key : ResourceKey) : Nat :=
  (l.filter (fun e => e.1 = some key)).length

/-! ### Concrete fixtures used by the witness theorems -/

def exSettings : ExportSettings := ⟨0⟩

def exEscn : EscnFile := ⟨[], []⟩

def exGdRoot : GdNode := GdNode.root "Root" "Spatial" {}

def exGdBody : GdNode := GdNode.child "Body" "StaticBody" {} exGdRoot

def exMesh : MeshData :=
  { name := "CubeMesh",
    vertices := [⟨0, 0, 0⟩, ⟨1, 0, 0⟩, ⟨0, 1, 0⟩],
    polygons := [0],
    loop_triangles := [(0, 1, 2)] }

def exRbd (i : Nat) (ty : String) (kin : Bool) (shape : String)
    (useMargin : Bool) (m : ℚ) : RigidBody :=
  { descId := i, type := ty, kinematic := kin, collision_shape := shape,
    use_margin := useMargin, collision_margin := m, friction := 0,
    restitution := 0, linear_damping := 0, angular_damping := 0,
    use_deactivation := false, use_start_deactivated := false,
    collision_collections := [true, false, true] }

def exObj (nm : String) (rbd : RigidBody) (msh : Option MeshData) : BlObject :=
  BlObject.root
    { name := nm, rigid_body := some rbd,
      bound_box := [⟨-1, -1, -2⟩, ⟨1, 1, 2⟩],
      matrix_world := 1, matrix_local := 1, mesh_data_id := 7, mesh := msh }

def exC2ObjA : BlObject :=
  exObj "A" (exRbd 1 "PASSIVE" false "CONVEX_HULL" true 1) (some exMesh)

def exC2ObjB : BlObject :=
  exObj "B" (exRbd 2 "PASSIVE" false "CONVEX_HULL" true 1) (some exMesh)

def exC4ObjA : BlObject := exObj "A" (exRbd 1 "PASSIVE" false "BOX" false 0) none

def exC4ObjB : BlObject := exObj "B" (exRbd 2 "PASSIVE" false "BOX" false 0) none

def exChainRoot : BlObject :=
  BlObject.root
    { name := "Top", rigid_body := some (exRbd 8 "PASSIVE" false "BOX" false 0),
      bound_box := [], matrix_world := 1, matrix_local := 1,
      mesh_data_id := 0, mesh := none }

def exChainA : BlObject :=
  BlObject.child
    { name := "A", rigid_body := some (exRbd 9 "PASSIVE" false "BOX" false 0),
      bound_box := [], matrix_world := 1, matrix_local := 1,
      mesh_data_id := 0, mesh := none }
    exChainRoot

def exChainB : BlObject :=
  BlObject.child
    { name := "B", rigid_body := some (exRbd 10 "PASSIVE" false "BOX" false 0),
      bound_box := [], matrix_world := 1, matrix_local := 1,
      mesh_data_id := 0, mesh := none }
    exChainA

/-! ## Theorems -/

/-- Invariant of the `get_physics_root` loop: with candidate `acc` so far,
walking from `n` to the top yields the last physics-carrying ancestor if
there is one, and `acc` otherwise. -/
theorem get_physics_root_loop_eq (acc : Option BlObject) (n : BlObject) :
    get_physics_root_loop acc n =
      (((ancestors n).filter (fun o => o.rigid_body.isSome)).getLast?).or acc := by
  induction n generalizing acc with
  | root d => simp [get_physics_root_loop, ancestors]
  | child d p ih =>
      rw [get_physics_root_loop, ancestors]
      by_cases hp : p.rigid_body.isSome
      · rw [if_pos hp, ih, List.filter_cons_of_pos (by simpa using hp)]
        cases hL : ((ancestors p).filter fun o => o.rigid_body.isSome) with
        | nil => simp
        | cons b l =>
            rw [List.getLast?_cons_cons]
            obtain ⟨x, hx⟩ := Option.isSome_iff_exists.mp
              (List.getLast?_isSome.mpr (List.cons_ne_nil b l))
            simp [hx]
      · rw [if_neg hp, ih, List.filter_cons_of_neg (by simpa using hp)]

/-- C1: `get_physics_root` walks every ancestor from the immediate parent
to the top and returns the upper-most ancestor carrying a physics
descriptor (the last physics-carrying element of the ancestor list, the
candidate being overwritten on each further match), and `none` when no
ancestor carries physics. -/
theorem get_physics_root_uppermost (n : BlObject) :
    get_physics_root n
      = ((ancestors n).filter (fun o => o.rigid_body.isSome)).getLast? := by
  rw [get_physics_root, get_physics_root_loop_eq]
  cases ((ancestors n).filter fun o => o.rigid_body.isSome).getLast? <;> rfl

/-! ### Resource-table lemmas -/

theorem lookupKey_append_self {l : List (Option ResourceKey × InternalResource)}
    {k : ResourceKey} (r : InternalResource) (h : lookupKey l k = none) :
    lookupKey (l ++ [(some k, r)]) k = some (l.length + 1) := by
  induction l with
  | nil => simp [lookupKey]
  | cons e rest ih =>
      rw [List.cons_append, lookupKey]
      rw [lookupKey] at h
      by_cases he : e.1 = some k
      · simp [he] at h
      · rw [if_neg he] at h ⊢
        have h' : lookupKey rest k = none := by
          cases hr : lookupKey rest k <;> simp [hr] at h ⊢
        rw [ih h']
        simp [Option.map_some]

theorem lookupKey_append_of_ne {l : List (Option ResourceKey × InternalResource)}
    {k : ResourceKey} {ok : Option ResourceKey} (r : InternalResource)
    (h : ok ≠ some k) :
    lookupKey (l ++ [(ok, r)]) k = lookupKey l k := by
  induction l with
  | nil => simp [lookupKey, h]
  | cons e rest ih =>
      rw [List.cons_append, lookupKey, lookupKey, ih]

theorem countKey_append (l l' : List (Option ResourceKey × InternalResource))
    (k : ResourceKey) :
    countKey (l ++ l') k = countKey l k + countKey l' k := by
  simp [countKey, List.filter_append]

theorem countKey_eq_zero {l : List (Option ResourceKey × InternalResource)}
    {k : ResourceKey} (h : lookupKey l k = none) : countKey l k = 0 := by
  induction l with
  | nil => rfl
  | cons e rest ih =>
      rw [lookupKey] at h
      by_cases he : e.1 = some k
      · simp [he] at h
      · rw [if_neg he] at h
        have h' : lookupKey rest k = none := by
          cases hr : lookupKey rest k <;> simp [hr] at h ⊢
        have := ih h'
        simp [countKey, List.filter_cons, he] at this ⊢
        exact this

/-! ### Behaviour of the mesh-shape generators -/

/-- Cache hit: `generate_convex_shape` returns the cached id and leaves the
file untouched. -/
theorem generate_convex_shape_hit {f : EscnFile} {s : ExportSettings}
    {o : BlObject} {id : Nat}
    (h : lookupKey f.resources (mesh_collision_shape_key "ConvexPolygonShape" o s)
      = some id) :
    generate_convex_shape f s o = (some id, f) := by
  simp [generate_convex_shape, EscnFile.get_internal_resource, h]

/-- Cache miss with available geometry: `generate_convex_shape` registers a
fresh resource under the mesh key and returns its id. -/
theorem generate_convex_shape_miss {f : EscnFile} {s : ExportSettings}
    {o : BlObject} {rbd : RigidBody} {m : MeshData}
    (hrb : o.rigid_body = some rbd)
    (hfresh : lookupKey f.resources (mesh_collision_shape_key "ConvexPolygonShape" o s)
      = none)
    (hm : to_mesh o = some m) :
    generate_convex_shape f s o =
      (some (f.resources.length + 1),
       { f with resources := f.resources ++
          [(some (mesh_collision_shape_key "ConvexPolygonShape" o s),
            if rbd.use_margin then
              { type := "ConvexPolygonShape", name := m.name,
                points := some m.vertices, margin := some rbd.collision_margin }
            else
              { type := "ConvexPolygonShape", name := m.name,
                points := some m.vertices })] }) := by
  by_cases hum : rbd.use_margin <;>
    simp [generate_convex_shape, EscnFile.get_internal_resource, hfresh, hm,
          EscnFile.add_internal_resource, BlObject.rbd, hrb, hum]

/-- Cache miss with no mesh: `generate_convex_shape` yields no resource and
leaves the file untouched. -/
theorem generate_convex_shape_no_mesh {f : EscnFile} {s : ExportSettings}
    {o : BlObject}
    (hfresh : lookupKey f.resources (mesh_collision_shape_key "ConvexPolygonShape" o s)
      = none)
    (hm : to_mesh o = none) :
    generate_convex_shape f s o = (none, f) := by
  simp [generate_convex_shape, EscnFile.get_internal_resource, hfresh, hm]

/-- Cache hit: `generate_concave_shape` returns the cached id and leaves the
file untouched. -/
theorem generate_concave_shape_hit {f : EscnFile} {s : ExportSettings}
    {o : BlObject} {id : Nat}
    (h : lookupKey f.resources (mesh_collision_shape_key "ConcavePolygonShape" o s)
      = some id) :
    generate_concave_shape f s o = (some id, f) := by
  simp [generate_concave_shape, EscnFile.get_internal_resource, h]

/-- Cache miss with polygon-bearing geometry: `generate_concave_shape`
registers a fresh resource under the mesh key and returns its id. -/
theorem generate_concave_shape_miss {f : EscnFile} {s : ExportSettings}
    {o : BlObject} {rbd : RigidBody} {m : MeshData}
    (hrb : o.rigid_body = some rbd)
    (hfresh : lookupKey f.resources (mesh_collision_shape_key "ConcavePolygonShape" o s)
      = none)
    (hm : to_mesh o = some m) (hpoly : m.polygons ≠ []) :
    generate_concave_shape f s o =
      (some (f.resources.length + 1),
       { f with resources := f.resources ++
          [(some (mesh_collision_shape_key "ConcavePolygonShape" o s),
            if rbd.use_margin then
              { type := "ConcavePolygonShape", name := m.name,
                data := some (concave_vert_array m),
                margin := some rbd.collision_margin }
            else
              { type := "ConcavePolygonShape", name := m.name,
                data := some (concave_vert_array m) })] }) := by
  by_cases hum : rbd.use_margin <;>
    simp [generate_concave_shape, EscnFile.get_internal_resource, hfresh, hm,
          EscnFile.add_internal_resource, BlObject.rbd, hrb, hum,
          List.isEmpty_iff, hpoly]

/-- Cache miss with missing or polygon-free mesh: `generate_concave_shape`
yields no resource and leaves the file untouched. -/
theorem generate_concave_shape_empty {f : EscnFile} {s : ExportSettings}
    {o : BlObject}
    (hfresh : lookupKey f.resources (mesh_collision_shape_key "ConcavePolygonShape" o s)
      = none)
    (hm : to_mesh o = none ∨ ∃ m, to_mesh o = some m ∧ m.polygons = []) :
    generate_concave_shape f s o = (none, f) := by
  rcases hm with hm | ⟨m, hm, hpoly⟩
  · simp [generate_concave_shape, EscnFile.get_internal_resource, hfresh, hm]
  · simp [generate_concave_shape, EscnFile.get_internal_resource, hfresh, hm,
          List.isEmpty_iff, hpoly]

/-- C2: mesh-derived shape generation (convex and concave) is get-or-create
keyed by the pair (margin, geometry identity): starting from a cache with
neither key registered, two requests of the same shape kind with identical
keys make the second return the same shape id as the first with the file
unchanged and exactly one resource registered under the key; two requests
that differ only in margin yield two distinct shape ids. -/
theorem mesh_shape_cache_get_or_create
    (s : ExportSettings) (f : EscnFile) (o1 o2 : BlObject)
    (rbd1 rbd2 : RigidBody) (m1 m2 : MeshData)
    (h1 : o1.rigid_body = some rbd1) (h2 : o2.rigid_body = some rbd2)
    (hm1 : to_mesh o1 = some m1) (hm2 : to_mesh o2 = some m2)
    (hp1 : m1.polygons ≠ []) (hp2 : m2.polygons ≠ [])
    (hcx1 : lookupKey f.resources
      (mesh_collision_shape_key "ConvexPolygonShape" o1 s) = none)
    (hcx2 : lookupKey f.resources
      (mesh_collision_shape_key "ConvexPolygonShape" o2 s) = none)
    (hcc1 : lookupKey f.resources
      (mesh_collision_shape_key "ConcavePolygonShape" o1 s) = none)
    (hcc2 : lookupKey f.resources
      (mesh_collision_shape_key "ConcavePolygonShape" o2 s) = none) :
    (mesh_collision_shape_key "ConvexPolygonShape" o2 s
        = mesh_collision_shape_key "ConvexPolygonShape" o1 s →
      (generate_convex_shape (generate_convex_shape f s o1).2 s o2).1
          = (generate_convex_shape f s o1).1
      ∧ (generate_convex_shape (generate_convex_shape f s o1).2 s o2).2
          = (generate_convex_shape f s o1).2
      ∧ countKey (generate_convex_shape (generate_convex_shape f s o1).2 s o2).2.resources
          (mesh_collision_shape_key "ConvexPolygonShape" o1 s) = 1)
    ∧
    (mesh_collision_shape_key "ConcavePolygonShape" o2 s
        = mesh_collision_shape_key "ConcavePolygonShape" o1 s →
      (generate_concave_shape (generate_concave_shape f s o1).2 s o2).1
          = (generate_concave_shape f s o1).1
      ∧ (generate_concave_shape (generate_concave_shape f s o1).2 s o2).2
          = (generate_concave_shape f s o1).2
      ∧ countKey (generate_concave_shape (generate_concave_shape f s o1).2 s o2).2.resources
          (mesh_collision_shape_key "ConcavePolygonShape" o1 s) = 1)
    ∧
    (o1.mesh_data_id = o2.mesh_data_id →
     shape_request_margin rbd1 ≠ shape_request_margin rbd2 →
      (generate_convex_shape f s o1).1 = some (f.resources.length + 1)
      ∧ (generate_convex_shape (generate_convex_shape f s o1).2 s o2).1
          = some (f.resources.length + 2)
      ∧ (generate_convex_shape (generate_convex_shape f s o1).2 s o2).1
          ≠ (generate_convex_shape f s o1).1
      ∧ (generate_concave_shape f s o1).1 = some (f.resources.length + 1)
      ∧ (generate_concave_shape (generate_concave_shape f s o1).2 s o2).1
          = some (f.resources.length + 2)
      ∧ (generate_concave_shape (generate_concave_shape f s o1).2 s o2).1
          ≠ (generate_concave_shape f s o1).1) := by
  have e1cx := generate_convex_shape_miss h1 hcx1 hm1
  have e1cc := generate_concave_shape_miss h1 hcc1 hm1 hp1
  refine ⟨?_, ?_, ?_⟩
  · intro hkey
    have e2 : generate_convex_shape (generate_convex_shape f s o1).2 s o2
        = (some (f.resources.length + 1), (generate_convex_shape f s o1).2) := by
      apply generate_convex_shape_hit
      simp only [e1cx]
      rw [hkey]
      exact lookupKey_append_self _ hcx1
    refine ⟨by rw [e2]; simp [e1cx], by rw [e2], ?_⟩
    rw [e2]
    simp only [e1cx]
    rw [countKey_append, countKey_eq_zero hcx1]
    simp [countKey]
  · intro hkey
    have e2 : generate_concave_shape (generate_concave_shape f s o1).2 s o2
        = (some (f.resources.length + 1), (generate_concave_shape f s o1).2) := by
      apply generate_concave_shape_hit
      simp only [e1cc]
      rw [hkey]
      exact lookupKey_append_self _ hcc1
    refine ⟨by rw [e2]; simp [e1cc], by rw [e2], ?_⟩
    rw [e2]
    simp only [e1cc]
    rw [countKey_append, countKey_eq_zero hcc1]
    simp [countKey]
  · intro hgeom hmargin
    have hkcx : mesh_collision_shape_key "ConvexPolygonShape" o1 s
        ≠ mesh_collision_shape_key "ConvexPolygonShape" o2 s := by
      intro hk
      apply hmargin
      have hcomp := congrArg
        (fun k => match k with
          | ResourceKey.mesh m _ _ _ => m
          | ResourceKey.rbdKey _ => 0) hk
      simpa [mesh_collision_shape_key, mesh_resource_key, BlObject.rbd,
             h1, h2] using hcomp
    have hkcc : mesh_collision_shape_key "ConcavePolygonShape" o1 s
        ≠ mesh_collision_shape_key "ConcavePolygonShape" o2 s := by
      intro hk
      apply hmargin
      have hcomp := congrArg
        (fun k => match k with
          | ResourceKey.mesh m _ _ _ => m
          | ResourceKey.rbdKey _ => 0) hk
      simpa [mesh_collision_shape_key, mesh_resource_key, BlObject.rbd,
             h1, h2] using hcomp
    have hl2cx : lookupKey ((generate_convex_shape f s o1).2).resources
        (mesh_collision_shape_key "ConvexPolygonShape" o2 s) = none := by
      simp only [e1cx]
      rw [lookupKey_append_of_ne _ (fun hc => hkcx (Option.some.inj hc))]
      exact hcx2
    have hl2cc : lookupKey ((generate_concave_shape f s o1).2).resources
        (mesh_collision_shape_key "ConcavePolygonShape" o2 s) = none := by
      simp only [e1cc]
      rw [lookupKey_append_of_ne _ (fun hc => hkcc (Option.some.inj hc))]
      exact hcc2
    have e2cx := generate_convex_shape_miss h2 hl2cx hm2
    have e2cc := generate_concave_shape_miss h2 hl2cc hm2 hp2
    refine ⟨by simp [e1cx], by rw [e2cx]; simp [e1cx], ?_, by simp [e1cc],
            by rw [e2cc]; simp [e1cc], ?_⟩
    · rw [e2cx]; simp [e1cx]
    · rw [e2cc]; simp [e1cc]

/-- Witness for C2: two concrete requests with identical key — the second
returns the first id and exactly one resource sits under the key. -/
theorem mesh_shape_cache_get_or_create_witness :
    (generate_convex_shape (generate_convex_shape exEscn exSettings exC2ObjA).2
        exSettings exC2ObjB).1
      = (generate_convex_shape exEscn exSettings exC2ObjA).1
    ∧ countKey (generate_convex_shape (generate_convex_shape exEscn exSettings exC2ObjA).2
        exSettings exC2ObjB).2.resources
        (mesh_collision_shape_key "ConvexPolygonShape" exC2ObjA exSettings) = 1 := by
  have h := mesh_shape_cache_get_or_create exSettings exEscn exC2ObjA exC2ObjB
      (exRbd 1 "PASSIVE" false "CONVEX_HULL" true 1)
      (exRbd 2 "PASSIVE" false "CONVEX_HULL" true 1)
      exMesh exMesh rfl rfl rfl rfl (by decide) (by decide) rfl rfl rfl rfl
  have h1 := h.1 (by decide)
  exact ⟨h1.1, h1.2.2⟩

/-- The transform assigned by `export_collision_shape` does not depend on
the shape branch taken: identity (no override) or inverse-world times
world (override), composed with the axis correction. -/
theorem export_collision_shape_transform_eq (f : EscnFile) (s : ExportSettings)
    (node : BlObject) (gd : GdNode) (po : Option BlObject) :
    (export_collision_shape f s node gd po).1.props.transform
      = some ((match po with
          | none => (1 : Mat4)
          | some ovr => inverted_safe ovr.matrix_world * node.matrix_world)
        * AXIS_CORRECT) := by
  simp only [export_collision_shape]
  split <;> simp [GdNode.props]

/-- C3: for every exported collision-shape node, with no root override the
transform is the identity composed with the fixed axis-correction matrix;
with a root override it is the inverse of the override's world transform
(witnessed by the two-sided inverse identities when the world transform is
invertible) multiplied by the object's world transform, composed with the
same axis-correction matrix. -/
theorem collision_shape_transform (f : EscnFile) (s : ExportSettings)
    (node : BlObject) (gd : GdNode) (rbd : RigidBody)
    (hrb : node.rigid_body = some rbd) :
    ((export_collision_shape f s node gd none).1.props.transform
        = some ((1 : Mat4) * AXIS_CORRECT))
    ∧ ∀ ovr : BlObject,
        ((export_collision_shape f s node gd (some ovr)).1.props.transform
          = some (inverted_safe ovr.matrix_world * node.matrix_world * AXIS_CORRECT))
        ∧ (ovr.matrix_world.det ≠ 0 →
            ovr.matrix_world * inverted_safe ovr.matrix_world = 1
            ∧ inverted_safe ovr.matrix_world * ovr.matrix_world = 1) := by
  refine ⟨by rw [export_collision_shape_transform_eq], fun ovr => ⟨?_, fun hdet => ⟨?_, ?_⟩⟩⟩
  · rw [export_collision_shape_transform_eq]
  · rw [inverted_safe, if_neg hdet, Matrix.mul_smul, Matrix.mul_adjugate,
        smul_smul, inv_mul_cancel₀ hdet, one_smul]
  · rw [inverted_safe, if_neg hdet, Matrix.smul_mul, Matrix.adjugate_mul,
        smul_smul, inv_mul_cancel₀ hdet, one_smul]

/-- Witness for C3: a concrete object attached under a concrete override
whose world transform is invertible. -/
theorem collision_shape_transform_witness :
    ((export_collision_shape exEscn exSettings exC2ObjA exGdBody (some exC2ObjB)).1.props.transform
      = some (inverted_safe exC2ObjB.matrix_world * exC2ObjA.matrix_world * AXIS_CORRECT))
    ∧ exC2ObjB.matrix_world * inverted_safe exC2ObjB.matrix_world = 1 := by
  have h := (collision_shape_transform exEscn exSettings exC2ObjA exGdBody
      (exRbd 1 "PASSIVE" false "CONVEX_HULL" true 1) rfl).2 exC2ObjB
  refine ⟨h.1, (h.2 ?_).1⟩
  have : exC2ObjB.matrix_world = (1 : Mat4) := rfl
  rw [this, Matrix.det_one]
  exact one_ne_zero

/-- Primitive branch of `export_collision_shape` on a fresh descriptor key:
one resource is appended under the descriptor-identity key, the node
references the fresh id, the node is registered, and no warning is logged. -/
theorem export_collision_shape_primitive_parts {f : EscnFile} {s : ExportSettings}
    {node : BlObject} {gd : GdNode} {po : Option BlObject} {rbd : RigidBody}
    (hrb : node.rigid_body = some rbd)
    (hshape : rbd.collision_shape = "BOX" ∨ rbd.collision_shape = "SPHERE"
      ∨ rbd.collision_shape = "CAPSULE")
    (hfresh : lookupKey f.resources (ResourceKey.rbdKey rbd.descId) = none) :
    ∃ rsc : InternalResource,
      (export_collision_shape f s node gd po).2.1.resources
          = f.resources ++ [(some (ResourceKey.rbdKey rbd.descId), rsc)]
      ∧ (export_collision_shape f s node gd po).1.props.shape
          = some (subResource (some (f.resources.length + 1)))
      ∧ (export_collision_shape f s node gd po).2.1.nodes
          = f.nodes ++ [(export_collision_shape f s node gd po).1]
      ∧ (export_collision_shape f s node gd po).2.2 = [] := by
  rcases hshape with hs | hs | hs
  · exact ⟨primitive_margined rbd
        { type := "BoxShape", name := node.name ++ "Collision",
          extents := some ⟨(get_extents node).x / 2, (get_extents node).y / 2,
            (get_extents node).z / 2⟩ },
      by simp [export_collision_shape, hs, BlObject.rbd, hrb, add_primitive_resource,
               EscnFile.add_internal_resource, hfresh, EscnFile.add_node, GdNode.props],
      by simp [export_collision_shape, hs, BlObject.rbd, hrb, add_primitive_resource,
               EscnFile.add_internal_resource, hfresh, EscnFile.add_node, GdNode.props],
      by simp [export_collision_shape, hs, BlObject.rbd, hrb, add_primitive_resource,
               EscnFile.add_internal_resource, hfresh, EscnFile.add_node, GdNode.props],
      by simp [export_collision_shape, hs, BlObject.rbd, hrb, add_primitive_resource,
               EscnFile.add_internal_resource, hfresh, EscnFile.add_node, GdNode.props]⟩
  · exact ⟨primitive_margined rbd
        { type := "SphereShape", name := node.name ++ "Collision",
          radius := some (max (get_extents node).x
            (max (get_extents node).y (get_extents node).z) / 2) },
      by simp [export_collision_shape, hs, BlObject.rbd, hrb, add_primitive_resource,
               EscnFile.add_internal_resource, hfresh, EscnFile.add_node, GdNode.props],
      by simp [export_collision_shape, hs, BlObject.rbd, hrb, add_primitive_resource,
               EscnFile.add_internal_resource, hfresh, EscnFile.add_node, GdNode.props],
      by simp [export_collision_shape, hs, BlObject.rbd, hrb, add_primitive_resource,
               EscnFile.add_internal_resource, hfresh, EscnFile.add_node, GdNode.props],
      by simp [export_collision_shape, hs, BlObject.rbd, hrb, add_primitive_resource,
               EscnFile.add_internal_resource, hfresh, EscnFile.add_node, GdNode.props]⟩
  · exact ⟨primitive_margined rbd
        { type := "CapsuleShape", name := node.name ++ "Collision",
          radius := some (max (get_extents node).x (get_extents node).y / 2),
          height := some ((get_extents node).z
            - max (get_extents node).x (get_extents node).y / 2 * 2) },
      by simp [export_collision_shape, hs, BlObject.rbd, hrb, add_primitive_resource,
               EscnFile.add_internal_resource, hfresh, EscnFile.add_node, GdNode.props],
      by simp [export_collision_shape, hs, BlObject.rbd, hrb, add_primitive_resource,
               EscnFile.add_internal_resource, hfresh, EscnFile.add_node, GdNode.props],
      by simp [export_collision_shape, hs, BlObject.rbd, hrb, add_primitive_resource,
               EscnFile.add_internal_resource, hfresh, EscnFile.add_node, GdNode.props],
      by simp [export_collision_shape, hs, BlObject.rbd, hrb, add_primitive_resource,
               EscnFile.add_internal_resource, hfresh, EscnFile.add_node, GdNode.props]⟩

/-- C4: primitive shape resources (Box, Sphere, Capsule) are registered
under the identity of the originating physics descriptor: for two distinct
physics-enabled objects (distinct descriptors), starting from a cache with
neither descriptor key present, the two exports reference two distinct
fresh ids, two separate resources are appended, and each descriptor key
holds exactly one resource — no sharing, regardless of geometry. -/
theorem primitive_shape_identity_keyed
    (f : EscnFile) (s : ExportSettings) (o1 o2 : BlObject)
    (gd1 gd2 : GdNode) (po1 po2 : Option BlObject) (rbd1 rbd2 : RigidBody)
    (h1 : o1.rigid_body = some rbd1) (h2 : o2.rigid_body = some rbd2)
    (hs1 : rbd1.collision_shape = "BOX" ∨ rbd1.collision_shape = "SPHERE"
      ∨ rbd1.collision_shape = "CAPSULE")
    (hs2 : rbd2.collision_shape = "BOX" ∨ rbd2.collision_shape = "SPHERE"
      ∨ rbd2.collision_shape = "CAPSULE")
    (hid : rbd1.descId ≠ rbd2.descId)
    (hf1 : lookupKey f.resources (ResourceKey.rbdKey rbd1.descId) = none)
    (hf2 : lookupKey f.resources (ResourceKey.rbdKey rbd2.descId) = none) :
    ResourceKey.rbdKey rbd1.descId ≠ ResourceKey.rbdKey rbd2.descId
    ∧ (export_collision_shape f s o1 gd1 po1).1.props.shape
        = some (subResource (some (f.resources.length + 1)))
    ∧ (export_collision_shape (export_collision_shape f s o1 gd1 po1).2.1
        s o2 gd2 po2).1.props.shape
        = some (subResource (some (f.resources.length + 2)))
    ∧ (export_collision_shape (export_collision_shape f s o1 gd1 po1).2.1
        s o2 gd2 po2).2.1.resources.length = f.resources.length + 2
    ∧ countKey (export_collision_shape (export_collision_shape f s o1 gd1 po1).2.1
        s o2 gd2 po2).2.1.resources (ResourceKey.rbdKey rbd1.descId) = 1
    ∧ countKey (export_collision_shape (export_collision_shape f s o1 gd1 po1).2.1
        s o2 gd2 po2).2.1.resources (ResourceKey.rbdKey rbd2.descId) = 1 := by
  have hkne : ResourceKey.rbdKey rbd1.descId ≠ ResourceKey.rbdKey rbd2.descId := by
    intro hk
    exact hid (by injection hk)
  obtain ⟨rsc1, hr1, hshape1, hn1, hw1⟩ :=
    @export_collision_shape_primitive_parts f s o1 gd1 po1 rbd1 h1 hs1 hf1
  have hf2' : lookupKey ((export_collision_shape f s o1 gd1 po1).2.1).resources
      (ResourceKey.rbdKey rbd2.descId) = none := by
    rw [hr1, lookupKey_append_of_ne _ (fun hc => hkne (Option.some.inj hc))]
    exact hf2
  obtain ⟨rsc2, hr2, hshape2, hn2, hw2⟩ :=
    @export_collision_shape_primitive_parts (export_collision_shape f s o1 gd1 po1).2.1
      s o2 gd2 po2 rbd2 h2 hs2 hf2'
  have hlen1 : ((export_collision_shape f s o1 gd1 po1).2.1).resources.length
      = f.resources.length + 1 := by rw [hr1]; simp
  refine ⟨hkne, hshape1, ?_, ?_, ?_, ?_⟩
  · rw [hshape2, hlen1]
  · rw [hr2, hr1]; simp
  · rw [hr2, hr1, List.append_assoc, countKey_append, countKey_eq_zero hf1]
    simp [countKey, hid, Ne.symm hid]
  · rw [hr2, hr1, List.append_assoc, countKey_append, countKey_eq_zero hf2]
    simp [countKey, hid, Ne.symm hid]

/-- Witness for C4: two concrete BOX objects with identical bounding boxes
but distinct descriptors get two distinct shape ids. -/
theorem primitive_shape_identity_keyed_witness :
    (export_collision_shape exEscn exSettings exC4ObjA exGdBody none).1.props.shape
        = some (subResource (some 1))
    ∧ (export_collision_shape (export_collision_shape exEscn exSettings exC4ObjA exGdBody none).2.1
        exSettings exC4ObjB exGdBody none).1.props.shape
        = some (subResource (some 2)) := by
  have h := primitive_shape_identity_keyed exEscn exSettings exC4ObjA exC4ObjB
      exGdBody exGdBody none none
      (exRbd 1 "PASSIVE" false "BOX" false 0) (exRbd 2 "PASSIVE" false "BOX" false 0)
      rfl rfl (Or.inl rfl) (Or.inl rfl) (by decide) rfl rfl
  exact ⟨by simpa [exEscn] using h.2.1, by simpa [exEscn] using h.2.2.1⟩

/-- C5: the body-controller variant is selected exactly by: Active with the
kinematic flag set maps to KinematicBody, Active without it to RigidBody,
and Passive to StaticBody. -/
theorem physics_controller_variant (f : EscnFile) (s : ExportSettings)
    (node : BlObject) (gd : GdNode) (rbd : RigidBody)
    (hrb : node.rigid_body = some rbd) :
    ((rbd.type = "ACTIVE" ∧ rbd.kinematic = true) →
        (export_physics_controller f s node gd).1.get_type = "KinematicBody")
    ∧ ((rbd.type = "ACTIVE" ∧ rbd.kinematic = false) →
        (export_physics_controller f s node gd).1.get_type = "RigidBody")
    ∧ (rbd.type = "PASSIVE" →
        (export_physics_controller f s node gd).1.get_type = "StaticBody") := by
  refine ⟨fun ⟨ht, hk⟩ => ?_, fun ⟨ht, hk⟩ => ?_, fun ht => ?_⟩
  · simp [export_physics_controller, BlObject.rbd, hrb, ht, hk, GdNode.get_type]
  · simp [export_physics_controller, BlObject.rbd, hrb, ht, hk, GdNode.get_type]
  · simp [export_physics_controller, BlObject.rbd, hrb, ht, GdNode.get_type]

/-- Witness for C5: a concrete Active, kinematic object maps to
KinematicBody. -/
theorem physics_controller_variant_witness :
    (export_physics_controller exEscn exSettings
        (exObj "K" (exRbd 3 "ACTIVE" true "BOX" false 0) none) exGdRoot).1.get_type
      = "KinematicBody" := by
  exact (physics_controller_variant exEscn exSettings
      (exObj "K" (exRbd 3 "ACTIVE" true "BOX" false 0) none) exGdRoot
      (exRbd 3 "ACTIVE" true "BOX" false 0) rfl).1 ⟨rfl, rfl⟩

/-- Shifting the starting offset of the collision-group accumulation by one
doubles the result. -/
theorem collision_groups_from_succ (k : Nat) (l : List Bool) :
    collision_groups_from (k + 1) l = 2 * collision_groups_from k l := by
  induction l generalizing k with
  | nil => simp [collision_groups_from]
  | cons fl rest ih =>
      rw [collision_groups_from, collision_groups_from, ih (k + 1),
          Nat.shiftLeft_succ]
      ring

/-- Unfolding of the collision-group accumulation on a cons cell. -/
theorem collision_groups_cons (fl : Bool) (rest : List Bool) :
    collision_groups (fl :: rest)
      = (if fl then 1 else 0) + 2 * collision_groups rest := by
  rw [collision_groups, collision_groups_from, collision_groups_from_succ]
  simp [collision_groups]

/-- Bit `i` of the collision-group integer is the `i`-th collection flag. -/
theorem collision_groups_testBit (flags : List Bool) (i : Nat) :
    (collision_groups flags).testBit i = flags.getD i false := by
  induction flags generalizing i with
  | nil => simp [collision_groups, collision_groups_from, Nat.zero_testBit]
  | cons fl rest ih =>
      rw [collision_groups_cons]
      cases i with
      | zero =>
          rw [Nat.testBit_zero]
          cases fl <;> simp [Nat.add_mul_mod_self_left, Nat.mul_mod_right]
      | succ j =>
          rw [Nat.testBit_add_one]
          have hdiv : ((if fl then 1 else 0) + 2 * collision_groups rest) / 2
              = collision_groups rest := by
            cases fl <;> simp <;> omega
          rw [hdiv, ih]
          simp

/-- C6: the body node's `collision_layer` equals its `collision_mask`, both
equal the integer whose bit `i` is set iff the `i`-th collision-collection
boolean is enabled (bit 0 least significant); in particular
`[true, false, true]` yields 5. -/
theorem collision_layer_mask_bits (f : EscnFile) (s : ExportSettings)
    (node : BlObject) (gd : GdNode) (rbd : RigidBody)
    (hrb : node.rigid_body = some rbd) :
    (export_physics_controller f s node gd).1.props.collision_layer
        = some (collision_groups rbd.collision_collections)
    ∧ (export_physics_controller f s node gd).1.props.collision_mask
        = some (collision_groups rbd.collision_collections)
    ∧ (∀ i, (collision_groups rbd.collision_collections).testBit i
        = rbd.collision_collections.getD i false)
    ∧ collision_groups [true, false, true] = 5 := by
  refine ⟨?_, ?_, fun i => collision_groups_testBit _ i, by decide⟩ <;>
    simp [export_physics_controller, BlObject.rbd, hrb, GdNode.props]

/-- Witness for C6: a concrete object with collections
`[true, false, true]` gets collision_layer = collision_mask = 5. -/
theorem collision_layer_mask_bits_witness :
    (export_physics_controller exEscn exSettings
        (exObj "L" (exRbd 4 "PASSIVE" false "BOX" false 0) none) exGdRoot).1.props.collision_layer
      = some 5
    ∧ (export_physics_controller exEscn exSettings
        (exObj "L" (exRbd 4 "PASSIVE" false "BOX" false 0) none) exGdRoot).1.props.collision_mask
      = some 5 := by
  have h := collision_layer_mask_bits exEscn exSettings
      (exObj "L" (exRbd 4 "PASSIVE" false "BOX" false 0) none) exGdRoot
      (exRbd 4 "PASSIVE" false "BOX" false 0) rfl
  exact ⟨by rw [h.1]; decide, by rw [h.2.1]; decide⟩

/-- C7: a Capsule request registers a resource whose radius is
max(bounds.x, bounds.y)/2 and whose height is bounds.z minus twice that
radius, with no clamping — when bounds.z is smaller than max(bounds.x,
bounds.y) the height is negative. -/
theorem capsule_radius_height (f : EscnFile) (s : ExportSettings)
    (node : BlObject) (gd : GdNode) (po : Option BlObject) (rbd : RigidBody)
    (hrb : node.rigid_body = some rbd)
    (hs : rbd.collision_shape = "CAPSULE")
    (hfresh : lookupKey f.resources (ResourceKey.rbdKey rbd.descId) = none) :
    ∃ rsc : InternalResource,
      (export_collision_shape f s node gd po).2.1.resources
          = f.resources ++ [(some (ResourceKey.rbdKey rbd.descId), rsc)]
      ∧ rsc.radius = some (max (get_extents node).x (get_extents node).y / 2)
      ∧ rsc.height = some ((get_extents node).z
          - max (get_extents node).x (get_extents node).y / 2 * 2)
      ∧ ((get_extents node).z < max (get_extents node).x (get_extents node).y →
          (get_extents node).z
            - max (get_extents node).x (get_extents node).y / 2 * 2 < 0) := by
  refine ⟨primitive_margined rbd
      { type := "CapsuleShape", name := node.name ++ "Collision",
        radius := some (max (get_extents node).x (get_extents node).y / 2),
        height := some ((get_extents node).z
          - max (get_extents node).x (get_extents node).y / 2 * 2) },
    ?_, ?_, ?_, ?_⟩
  · simp [export_collision_shape, hs, BlObject.rbd, hrb, add_primitive_resource,
          EscnFile.add_internal_resource, hfresh, EscnFile.add_node]
  · cases hum : rbd.use_margin <;> simp [primitive_margined, hum]
  · cases hum : rbd.use_margin <;> simp [primitive_margined, hum]
  · intro hlt
    have h2 : max (get_extents node).x (get_extents node).y / 2 * 2
        = max (get_extents node).x (get_extents node).y := by ring
    rw [h2]
    linarith

/-- Witness for C7: bounds (2, 2, 4) yield radius 1 and height 2. -/
theorem capsule_radius_height_witness :
    ∃ rsc : InternalResource,
      (export_collision_shape exEscn exSettings
          (exObj "C" (exRbd 5 "PASSIVE" false "CAPSULE" false 0) none)
          exGdBody none).2.1.resources
        = [(some (ResourceKey.rbdKey 5), rsc)]
      ∧ rsc.radius = some 1 ∧ rsc.height = some 2 := by
  obtain ⟨rsc, h1, h2, h3, _⟩ := capsule_radius_height exEscn exSettings
      (exObj "C" (exRbd 5 "PASSIVE" false "CAPSULE" false 0) none)
      exGdBody none (exRbd 5 "PASSIVE" false "CAPSULE" false 0) rfl rfl rfl
  have hext : get_extents (exObj "C" (exRbd 5 "PASSIVE" false "CAPSULE" false 0) none)
      = ⟨2, 2, 4⟩ := by
    simp [get_extents, exObj, BlObject.bound_box, BlObject.data,
          vecMax, vecMin, vecSub]
    norm_num
  refine ⟨rsc, by simpa [exEscn, exRbd] using h1, ?_, ?_⟩
  · rw [h2, hext]; norm_num
  · rw [h3, hext]; norm_num

/-- C8: an unsupported shape kind is non-fatal — exactly one warning is
logged, no resource is registered, the node still carries the null shape
reference `"SubResource(None)"`, and the node is registered into the
document. -/
theorem unsupported_shape_nonfatal (f : EscnFile) (s : ExportSettings)
    (node : BlObject) (gd : GdNode) (po : Option BlObject) (rbd : RigidBody)
    (hrb : node.rigid_body = some rbd)
    (hs : rbd.collision_shape
      ∉ (["CONVEX_HULL", "MESH", "BOX", "SPHERE", "CAPSULE"] : List String)) :
    (export_collision_shape f s node gd po).2.2
        = ["Unable to export physics shape for " ++ node.name]
    ∧ (export_collision_shape f s node gd po).2.1.resources = f.resources
    ∧ (export_collision_shape f s node gd po).1.props.shape
        = some (subResource none)
    ∧ (export_collision_shape f s node gd po).2.1.nodes
        = f.nodes ++ [(export_collision_shape f s node gd po).1] := by
  have h1 : rbd.collision_shape ≠ "CONVEX_HULL" := fun hc => hs (by simp [hc])
  have h2 : rbd.collision_shape ≠ "MESH" := fun hc => hs (by simp [hc])
  have h3 : rbd.collision_shape ≠ "BOX" := fun hc => hs (by simp [hc])
  have h4 : rbd.collision_shape ≠ "SPHERE" := fun hc => hs (by simp [hc])
  have h5 : rbd.collision_shape ≠ "CAPSULE" := fun hc => hs (by simp [hc])
  refine ⟨?_, ?_, ?_, ?_⟩ <;>
    simp [export_collision_shape, BlObject.rbd, hrb, h1, h2, h3, h4, h5,
          EscnFile.add_node, GdNode.props]

/-- Witness for C8: a concrete CYLINDER-shaped descriptor. -/
theorem unsupported_shape_nonfatal_witness :
    (export_collision_shape exEscn exSettings
        (exObj "U" (exRbd 6 "PASSIVE" false "CYLINDER" false 0) none)
        exGdBody none).2.2
      = ["Unable to export physics shape for U"]
    ∧ (export_collision_shape exEscn exSettings
        (exObj "U" (exRbd 6 "PASSIVE" false "CYLINDER" false 0) none)
        exGdBody none).2.1.resources = []
    ∧ (export_collision_shape exEscn exSettings
        (exObj "U" (exRbd 6 "PASSIVE" false "CYLINDER" false 0) none)
        exGdBody none).1.props.shape = some "SubResource(None)" := by
  have h := unsupported_shape_nonfatal exEscn exSettings
      (exObj "U" (exRbd 6 "PASSIVE" false "CYLINDER" false 0) none)
      exGdBody none (exRbd 6 "PASSIVE" false "CYLINDER" false 0) rfl (by decide)
  exact ⟨h.1.trans (by decide), h.2.1, h.2.2.1.trans (by decide)⟩

/-- C9: a convex or concave request whose collaborator yields missing (or,
for concave, polygon-free) geometry is non-fatal — no resource is produced
or registered, the node's shape reference stays unset, the node is still
registered, and no warning is logged. -/
theorem missing_mesh_nonfatal (f : EscnFile) (s : ExportSettings)
    (node : BlObject) (gd : GdNode) (po : Option BlObject) (rbd : RigidBody)
    (hrb : node.rigid_body = some rbd) :
    (rbd.collision_shape = "CONVEX_HULL" →
     to_mesh node = none →
     lookupKey f.resources (mesh_collision_shape_key "ConvexPolygonShape" node s) = none →
      (export_collision_shape f s node gd po).2.1.resources = f.resources
      ∧ (export_collision_shape f s node gd po).1.props.shape = none
      ∧ (export_collision_shape f s node gd po).2.1.nodes
          = f.nodes ++ [(export_collision_shape f s node gd po).1]
      ∧ (export_collision_shape f s node gd po).2.2 = [])
    ∧ (rbd.collision_shape = "MESH" →
       (to_mesh node = none ∨ ∃ m, to_mesh node = some m ∧ m.polygons = []) →
       lookupKey f.resources (mesh_collision_shape_key "ConcavePolygonShape" node s) = none →
      (export_collision_shape f s node gd po).2.1.resources = f.resources
      ∧ (export_collision_shape f s node gd po).1.props.shape = none
      ∧ (export_collision_shape f s node gd po).2.1.nodes
          = f.nodes ++ [(export_collision_shape f s node gd po).1]
      ∧ (export_collision_shape f s node gd po).2.2 = []) := by
  constructor
  · intro hs hm hfresh
    have e := generate_convex_shape_no_mesh hfresh hm
    refine ⟨?_, ?_, ?_, ?_⟩ <;>
      simp [export_collision_shape, hs, BlObject.rbd, hrb, e,
            EscnFile.add_node, GdNode.props]
  · intro hs hm hfresh
    have e := generate_concave_shape_empty hfresh hm
    refine ⟨?_, ?_, ?_, ?_⟩ <;>
      simp [export_collision_shape, hs, BlObject.rbd, hrb, e,
            EscnFile.add_node, GdNode.props]

/-- Witness for C9: a concrete convex-hull request with no mesh. -/
theorem missing_mesh_nonfatal_witness :
    (export_collision_shape exEscn exSettings
        (exObj "M" (exRbd 7 "PASSIVE" false "CONVEX_HULL" false 0) none)
        exGdBody none).2.1.resources = []
    ∧ (export_collision_shape exEscn exSettings
        (exObj "M" (exRbd 7 "PASSIVE" false "CONVEX_HULL" false 0) none)
        exGdBody none).1.props.shape = none
    ∧ (export_collision_shape exEscn exSettings
        (exObj "M" (exRbd 7 "PASSIVE" false "CONVEX_HULL" false 0) none)
        exGdBody none).2.2 = [] := by
  have h := (missing_mesh_nonfatal exEscn exSettings
      (exObj "M" (exRbd 7 "PASSIVE" false "CONVEX_HULL" false 0) none)
      exGdBody none (exRbd 7 "PASSIVE" false "CONVEX_HULL" false 0) rfl).1
      rfl rfl rfl
  exact ⟨h.1, h.2.1, h.2.2.2⟩

/-- C10: the unchecked upward walk of `export_physics_properties` over
output-node parents returns the nearest chain node whose type-tag is a
physics type, and yields the crash value (`none`, modelling the
`AttributeError` from stepping past a parentless node) exactly when no node
in the chain carries a physics type-tag. -/
theorem physics_node_walk_nearest (g : GdNode) :
    findPhysicsNode g
      = (gdChain g).find? (fun m => decide (m.get_type ∈ PHYSICS_TYPES))
    ∧ ((findPhysicsNode g).isNone
        ↔ ∀ m ∈ gdChain g, m.get_type ∉ PHYSICS_TYPES) := by
  have h : findPhysicsNode g
      = (gdChain g).find? (fun m => decide (m.get_type ∈ PHYSICS_TYPES)) := by
    induction g with
    | root n t pr =>
        by_cases ht : t ∈ PHYSICS_TYPES <;>
          simp [findPhysicsNode, gdChain, GdNode.get_type, ht, List.find?]
    | child n t pr p ih =>
        by_cases ht : t ∈ PHYSICS_TYPES <;>
          simp [findPhysicsNode, gdChain, GdNode.get_type, ht, List.find?, ih]
  refine ⟨h, ?_⟩
  rw [h, Option.isNone_iff_eq_none, List.find?_eq_none]
  simp

/-- Witness for C1: on the chain Top(physics) → A(physics) → B, the walk
from B returns the upper-most physics ancestor Top, not the nearest one A. -/
theorem get_physics_root_uppermost_witness :
    get_physics_root exChainB
        = ((ancestors exChainB).filter (fun o => o.rigid_body.isSome)).getLast?
    ∧ get_physics_root exChainB = some exChainRoot :=
  ⟨get_physics_root_uppermost exChainB, rfl⟩

/-- Witness for C10: on a concrete output chain the walk finds the
StaticBody node; started from a chain with no physics-typed node it yields
the crash value. -/
theorem physics_node_walk_nearest_witness :
    findPhysicsNode exGdBody
        = (gdChain exGdBody).find? (fun m => decide (m.get_type ∈ PHYSICS_TYPES))
    ∧ findPhysicsNode exGdBody = some exGdBody
    ∧ findPhysicsNode exGdRoot = none :=
  ⟨(physics_node_walk_nearest exGdBody).1,
   by simp [findPhysicsNode, exGdBody, PHYSICS_TYPES],
   by simp [findPhysicsNode, exGdRoot, PHYSICS_TYPES]⟩
